import Mathlib

/-!
Shallow embedding of the flight-assistant backend (src/agent.py,
src/flightassistant_tools.py, src/main.py) and proofs about its
orchestration loop, conversation-state model and tool adapters.

The two LLM calls (worker and evaluator) and the two network effects
(fare-lookup HTTP exchange, SMTP session) are modelled as oracles and
abstract outcome values passed in as parameters; everything the
repository itself computes (routing, message management, prompt
assembly, error mapping) is embedded as executable Lean functions.
-/

namespace Flight

/-- A tool-invocation request carried by an assistant message
(LangChain `tool_calls`): a tool name plus its serialized arguments. -/
structure ToolCall where
  name : String
  args : String
deriving DecidableEq, Repr

/-- Message entries, the tagged union over LangChain message classes
used by src/agent.py: `SystemMessage`, `HumanMessage`, `AIMessage`
(which may carry tool calls) and the `ToolMessage`s appended by the
`ToolNode`. Python `content=None` is modelled as the empty string,
matching Python truthiness checks on `message.content`. -/
inductive Message where
  | system (content : String)
  | human (content : String)
  | assistant (content : String) (tool_calls : List ToolCall)
  | tool (content : String)
deriving DecidableEq, Repr

/-- The `content` attribute of a message. -/
def Message.content : Message → String
  | .system c => c
  | .human c => c
  | .assistant c _ => c
  | .tool c => c

/-- Whether the entry is a `SystemMessage` (`isinstance(m, SystemMessage)`). -/
def Message.isSystem : Message → Bool
  | .system _ => true
  | _ => false

/-- The `tool_calls` attribute: non-empty only on `AIMessage`s. -/
def Message.tool_calls : Message → List ToolCall
  | .assistant _ tcs => tcs
  | _ => []

/-- The graph state `State` of src/agent.py lines 33-39: a message log
with append-only `add_messages` merge semantics plus four control
fields. -/
structure State where
  messages : List Message
  success_criteria : String
  feedback_on_work : Option String
  success_criteria_met : Bool
  user_input_needed : Bool
deriving DecidableEq, Repr

/-- The evaluator structured output `EvaluatorOutput` (src/agent.py
lines 43-46). -/
structure EvaluatorOutput where
  feedback : String
  success_criteria_met : Bool
  user_input_needed : Bool
deriving DecidableEq, Repr

/-! ## Tool adapters (src/flightassistant_tools.py) -/

/-- Outcome of the fare-lookup HTTP exchange, supplied by the
environment: either a response (status code, body text, and the text
`str(e)` of the `HTTPStatusError` that `raise_for_status` would raise
for a 4xx/5xx status), or an `httpx.RequestError` (connection error),
or any other unexpected exception. -/
inductive FareOutcome where
  | response (status : Nat) (body : String) (errText : String)
  | requestError (msg : String)
  | unexpected (msg : String)
deriving DecidableEq, Repr

/-- Result returned by the fare-lookup tool: a plain warning string, a
parsed JSON body, or the Python dict with a single key `error`
(modelled by its message). -/
inductive ToolResult where
  | text (s : String)
  | json (body : String)
  | errorObj (message : String)
deriving DecidableEq, Repr

/-- The literal warning returned for HTTP 429
(src/flightassistant_tools.py line 35). -/
def warn429 : String :=
  "⚠️ La API de vuelos está saturada momentáneamente. Por favor, espera 1 minuto e inténtalo de nuevo."

/-- The literal warning returned for HTTP 502
(src/flightassistant_tools.py line 39). -/
def warn502 : String :=
  "⚠️ El servidor de vuelos se está reiniciando (Cold Start). Por favor, intenta la misma búsqueda en 30 segundos."

/-- Embeds `ryanair_flight_search` (src/flightassistant_tools.py lines
8-49): status 429 and 502 are special-cased to warning strings before
`raise_for_status`; any other 4xx/5xx status makes `raise_for_status`
raise an `HTTPStatusError` which the handler turns into
`{"error": "Error HTTP <status>: <str(e)>"}`; a 2xx/3xx response is
returned as parsed JSON; `RequestError` and any other exception are
likewise caught and turned into `error` dicts. -/
def ryanair_flight_search : FareOutcome → ToolResult
  | .response status body errText =>
      if status = 429 then .text warn429
      else if status = 502 then .text warn502
      else if 400 ≤ status ∧ status < 600 then
        .errorObj ("Error HTTP " ++ toString status ++ ": " ++ errText)
      else .json body
  | .requestError msg => .errorObj ("Error de conexión: " ++ msg)
  | .unexpected msg => .errorObj ("Error inesperado: " ++ msg)

/-- Outcome of the SMTP session, supplied by the environment: the
`smtplib.SMTP(\x27smtp.gmail.com\x27, 587)` constructor itself fails
(connection failure, before `servidor` is assigned), or one of
`starttls`/`login`/`sendmail` fails after the connection is up, or
everything succeeds. -/
inductive SmtpOutcome where
  | connectFail (msg : String)
  | opFail (msg : String)
  | ok
deriving DecidableEq, Repr

/-- Python truthiness of an `os.getenv` result: `None` (variable
absent) and the empty string are falsy. -/
def credential_missing : Option String → Bool
  | none => true
  | some s => s == ""

/-- The literal configuration-error string
(src/flightassistant_tools.py line 63). -/
def config_error_message : String :=
  "❌ Error de configuración: Credenciales de email no encontradas en el entorno."

/-- Embeds `send_email` (src/flightassistant_tools.py lines 52-97) as a
function of the two environment credentials and the SMTP outcome.
`Except.error` models an exception escaping the function; `Except.ok`
carries the Python return value (`none` = Python `None`).

The body is a faithful rendering of the control flow:
* missing/empty credentials return the configuration-error string
  before any SMTP work;
* otherwise, if the `smtplib.SMTP` constructor raises, the `except`
  clause catches it, but the `finally` block then evaluates
  `if \x27servidor\x27:` — a non-empty string literal, always truthy — and
  calls `servidor.quit()` with `servidor = None`, which raises
  `AttributeError` out of the function;
* if a later SMTP operation raises, it is caught and printed, `quit()`
  succeeds on the live connection, and the function falls off the end
  returning `None`;
* on success the function prints a confirmation and likewise falls off
  the end returning `None` — there is no `return` statement on these
  paths. -/
def send_email (remitente password : Option String) (smtp : SmtpOutcome) :
    Except String (Option String) :=
  if credential_missing remitente || credential_missing password then
    .ok (some config_error_message)
  else
    match smtp with
    | .connectFail _ =>
        .error "AttributeError: \x27NoneType\x27 object has no attribute \x27quit\x27"
    | .opFail _ => .ok none
    | .ok => .ok none

/-! ## Worker node (src/agent.py lines 74-121) -/

/-- The worker system-prompt text up to the feedback block: the
f-string of src/agent.py lines 79-103 with its two interpolations (the
current timestamp and the success criteria) abstracted. -/
def worker_system_base (now criteria : String) : String :=
  "You are a helpful assistant equipped with web tools and FLIGHT search tools, and EMAIL tools.\n            You keep working on a task until either you have a question or clarification for the user, or the success criteria is met.\n            The current date is " ++ now ++ ".\n            \n            This is the success criteria:\n            " ++ criteria ++ "\n\n            ### CRITICAL ERROR HANDLING (HIGHEST PRIORITY):\n            If the \x27ryanair_flight_search\x27 tool returns a message mentioning \"Cold Start\", \"reiniciando\", or \"502\":\n            1. DO NOT CALL THE TOOL AGAIN immediately.\n            2. STOP and inform the user: \"⚠️ El servidor de vuelos se está iniciando (Cold Start). Por favor, espera 30 segundos y vuelve a preguntarme.\"\n            3. Do not try to fix it yourself, just report it and stop.\n\n            ### RULES FOR FLIGHT SEARCH:\n            1. If the user asks for flights, use the \x27ryanair_flight_search\x27 tool.\n            2. You MUST convert city names to IATA codes yourself (e.g., Madrid -> MAD).\n            3. Format dates strictly as YYYY-MM-DD.\n            \n            ### RULES FOR EMAIL:\n            1. OFFER EMAIL: After presenting the results, YOU MUST ASK the user: \"Do you want me to email you this summary?\".\n            2. SEND EMAIL: \n               - If the user says YES: Ask for their email address (if you don\x27t know it yet).\n               - Once you have the email, use \x27send_email\x27 tool to send the summary.\n               - Subject should be descriptive (e.g., \"Flight Summary: MAD to LON\").\n        "

/-- The corrective block appended when `feedback_on_work` is truthy
(src/agent.py lines 106-110), quoting the feedback verbatim. -/
def worker_feedback_block (fb : String) : String :=
  "\n            Previously your reply was rejected. Feedback: " ++ fb ++ "\n            Please fix this.\n            "

/-- The full system-prompt content built by `worker`: the base text
plus, when `state.get(\x22feedback_on_work\x22)` is truthy (present and
non-empty), the corrective block. -/
def worker_system_content (now : String) (s : State) : String :=
  worker_system_base now s.success_criteria ++
    (match s.feedback_on_work with
     | some fb => if fb == "" then "" else worker_feedback_block fb
     | none => "")

/-- The prompt sequence sent to the worker LLM (src/agent.py lines
112-116): all existing `SystemMessage`s are filtered out and one fresh
`SystemMessage` is prepended. -/
def worker_prompt_messages (now : String) (s : State) : List Message :=
  .system (worker_system_content now s) ::
    s.messages.filter (fun m => !m.isSystem)

/-- The `worker` node (src/agent.py lines 74-121). The bound LLM is an
oracle from the prompt sequence to the produced `AIMessage` (its text
content and its tool calls). The returned `{"messages": [response]}`
update is merged by `add_messages`, which appends the fresh message to
the log; no control field is touched. -/
def worker_node (now : String) (llm : List Message → String × List ToolCall)
    (s : State) : State :=
  let response := llm (worker_prompt_messages now s)
  { s with messages := s.messages ++ [.assistant response.1 response.2] }

/-! ## Evaluator node (src/agent.py lines 123-173) -/

/-- One line of the transcript built by `format_conversation`
(src/agent.py lines 126-134): `HumanMessage` renders as a `User:` line,
`AIMessage` as an `Assistant:` line with the placeholder `[Tool Call]`
when its content is empty, `SystemMessage` is skipped (`continue`), and
any other message class (e.g. `ToolMessage`) matches no branch and adds
nothing. -/
def render_for_evaluator : Message → String
  | .human c => "User: " ++ c ++ "\n"
  | .assistant c _ =>
      "Assistant: " ++ (if c == "" then "[Tool Call]" else c) ++ "\n"
  | .system _ => ""
  | .tool _ => ""

/-- `format_conversation` (src/agent.py lines 123-135): a fold over the
message log starting from the fixed header. -/
def format_conversation (messages : List Message) : String :=
  messages.foldl (fun conversation m => conversation ++ render_for_evaluator m)
    "Conversation history:\n\n"

/-- The "last response" taken by `evaluator` (src/agent.py lines
142-143): the last message content, or the placeholder
`[Action/Tool Call]` when that content is empty; `none` models the
`IndexError` raised by `messages[-1]` on an empty log. -/
def evaluator_last_response (messages : List Message) : Option String :=
  messages.getLast?.map
    (fun m => if m.content == "" then "[Action/Tool Call]" else m.content)

/-- The evaluator system prompt (src/agent.py line 145). -/
def evaluator_system_prompt : String :=
  "You are an evaluator. Assess if the Assistant met the success criteria."

/-- The evaluator user prompt (src/agent.py lines 147-158) with its
three interpolations abstracted. -/
def evaluator_user_prompt (conversation criteria lastResponse : String) : String :=
  "\n        Conversation:\n        " ++ conversation ++ "\n\n        Success Criteria:\n        " ++ criteria ++ "\n\n        Last Assistant Response:\n        " ++ lastResponse ++ "\n\n        Did the assistant meet the criteria? Does it need more user input?\n        "

/-- The structured judgment produced by the evaluator LLM oracle for a
state whose last message is `m`: the oracle consumes the system prompt
and the assembled user prompt. -/
def evaluator_judgment (evalO : String → String → EvaluatorOutput)
    (s : State) (m : Message) : EvaluatorOutput :=
  evalO evaluator_system_prompt
    (evaluator_user_prompt (format_conversation s.messages) s.success_criteria
      (if m.content == "" then "[Action/Tool Call]" else m.content))

/-- The state update returned by `evaluator` (src/agent.py lines
169-173): the three judgment fields are copied into the state; the
message log is untouched (no `messages` key in the returned dict). -/
def apply_judgment (s : State) (j : EvaluatorOutput) : State :=
  { s with feedback_on_work := some j.feedback,
           success_criteria_met := j.success_criteria_met,
           user_input_needed := j.user_input_needed }

/-- The `evaluator` node (src/agent.py lines 137-173); `none` models
the `IndexError` on an empty message log. -/
def evaluator_node (evalO : String → String → EvaluatorOutput)
    (s : State) : Option State :=
  s.messages.getLast?.map (fun m => apply_judgment s (evaluator_judgment evalO s m))

/-! ## Routing and the graph (src/agent.py lines 177-248) -/

/-- `worker_router` (src/agent.py lines 177-182): returns `"tools"`
when the last message is an `AIMessage` with a truthy (non-empty)
`tool_calls` list, else `"evaluator"`; `none` models the `IndexError`
on an empty log. -/
def worker_router (s : State) : Option String :=
  s.messages.getLast?.map
    (fun m =>
      match m with
      | .assistant _ tcs => if tcs.isEmpty then "evaluator" else "tools"
      | _ => "evaluator")

/-- `route_based_on_evaluation` (src/agent.py lines 184-189). -/
def route_based_on_evaluation (s : State) : String :=
  if s.success_criteria_met || s.user_input_needed then "END" else "worker"

/-- The `ToolNode` (src/agent.py line 198): executes every tool call of
the last message through the tool-execution oracle and appends one
`ToolMessage` per call via `add_messages`. -/
def tools_node (exec : ToolCall → String) (s : State) : Option State :=
  s.messages.getLast?.map
    (fun m => { s with
      messages := s.messages ++ m.tool_calls.map (fun tc => .tool (exec tc)) })

/-- The three graph nodes of src/agent.py lines 193-223. -/
inductive Node where
  | worker
  | tools
  | evaluator
deriving DecidableEq, Repr

/-- One transition of the compiled graph (src/agent.py lines 193-223):
run the current node, then follow its (conditional) edge. `none` as the
outer value models a runtime exception inside a node; `none` as the
next node is `END`. -/
def graph_step (now : String) (llm : List Message → String × List ToolCall)
    (exec : ToolCall → String) (evalO : String → String → EvaluatorOutput) :
    Node → State → Option (Option Node × State)
  | .worker, s =>
      let sw := worker_node now llm s
      (worker_router sw).map
        (fun r => (some (if r == "tools" then Node.tools else Node.evaluator), sw))
  | .tools, s => (tools_node exec s).map (fun st => (some Node.worker, st))
  | .evaluator, s =>
      (evaluator_node evalO s).map
        (fun se =>
          (if route_based_on_evaluation se == "END" then none else some Node.worker, se))

/-- Runs the graph from a node until it routes to `END`, with explicit
fuel standing in for the unbounded iteration the source performs
(`none` when the fuel runs out or a node raises). -/
def run_graph (now : String) (llm : List Message → String × List ToolCall)
    (exec : ToolCall → String) (evalO : String → String → EvaluatorOutput) :
    Nat → Node → State → Option State
  | 0, _, _ => none
  | fuel + 1, n, s =>
      match graph_step now llm exec evalO n s with
      | none => none
      | some (none, s2) => some s2
      | some (some n2, s2) => run_graph now llm exec evalO fuel n2 s2

/-- The fixed success criteria of `run_superstep` (src/agent.py line 233). -/
def default_success_criteria : String := "Answer clearly. Offer email if relevant."

/-- The initial state built by `run_superstep` (src/agent.py lines
231-237) as merged with the checkpointed log of the thread:
`add_messages` appends the fresh `HumanMessage` to the prior log, the
other fields are overwritten. -/
def superstep_initial (prior : List Message) (user_input : String) : State :=
  { messages := prior ++ [.human user_input],
    success_criteria := default_success_criteria,
    feedback_on_work := none,
    success_criteria_met := false,
    user_input_needed := false }

/-- `run_superstep` (src/agent.py lines 225-248): invoke the graph from
the `START → worker` edge and return `messages[-1].content` of the
final state (inner `none` would be the `IndexError` on an empty final
log). -/
def run_superstep (now : String) (llm : List Message → String × List ToolCall)
    (exec : ToolCall → String) (evalO : String → String → EvaluatorOutput)
    (fuel : Nat) (prior : List Message) (user_input : String) :
    Option (Option String) :=
  (run_graph now llm exec evalO fuel .worker (superstep_initial prior user_input)).map
    (fun s => s.messages.getLast?.map Message.content)

/-! ## Session boundary (src/main.py) -/

/-- The request model `ChatRequest` (src/main.py lines 54-56). -/
structure ChatRequest where
  message : String
  thread_id : String
deriving DecidableEq, Repr

/-- Parsing a request body into a `ChatRequest`: the `thread_id` field
is optional with pydantic default `"default_user"` (src/main.py line 56). -/
def parse_chat_request (message : String) (thread_id : Option String) : ChatRequest :=
  { message := message, thread_id := thread_id.getD "default_user" }

/-- The thread identifier `chat_endpoint` forwards to `run_superstep`
(src/main.py lines 79-82). -/
def chat_endpoint_thread (r : ChatRequest) : String := r.thread_id

/-! ## Theorems -/

/-- C1: for every state reaching the evaluator (its message log is
non-empty, with last message `m`), if the judgment's
`success_criteria_met` is true then routing yields `"END"` — whatever
`user_input_needed` is — the graph run from the evaluator terminates in
one step with the judged state, and the superstep extraction returns
the content of the last message of the log; the route is `"END"` iff
`success_criteria_met OR user_input_needed`, and when both flags are
false the evaluator edge re-enters the worker node. -/
theorem evaluator_routing_c1 (now : String)
    (llm : List Message → String × List ToolCall) (exec : ToolCall → String)
    (evalO : String → String → EvaluatorOutput) (fuel : Nat) (s : State)
    (m : Message) (hm : s.messages.getLast? = some m) :
    ((evaluator_judgment evalO s m).success_criteria_met = true →
        route_based_on_evaluation (apply_judgment s (evaluator_judgment evalO s m))
          = "END"
      ∧ run_graph now llm exec evalO (fuel + 1) .evaluator s
          = some (apply_judgment s (evaluator_judgment evalO s m))
      ∧ (run_graph now llm exec evalO (fuel + 1) .evaluator s).map
            (fun st => st.messages.getLast?.map Message.content)
          = some (some m.content))
  ∧ (route_based_on_evaluation (apply_judgment s (evaluator_judgment evalO s m))
        = "END"
      ↔ ((evaluator_judgment evalO s m).success_criteria_met
          || (evaluator_judgment evalO s m).user_input_needed) = true)
  ∧ ((evaluator_judgment evalO s m).success_criteria_met = false →
      (evaluator_judgment evalO s m).user_input_needed = false →
      graph_step now llm exec evalO .evaluator s
        = some (some Node.worker, apply_judgment s (evaluator_judgment evalO s m))) := by
  refine ⟨fun hmet => ?_, ?_, fun hmet hinp => ?_⟩
  · have hroute :
        route_based_on_evaluation (apply_judgment s (evaluator_judgment evalO s m))
          = "END" := by
      simp [route_based_on_evaluation, apply_judgment, hmet]
    have hrun : run_graph now llm exec evalO (fuel + 1) .evaluator s
        = some (apply_judgment s (evaluator_judgment evalO s m)) := by
      simp [run_graph, graph_step, evaluator_node, hm, hroute]
    refine ⟨hroute, hrun, ?_⟩
    simp [hrun, apply_judgment, hm]
  · simp only [route_based_on_evaluation, apply_judgment]
    by_cases h : ((evaluator_judgment evalO s m).success_criteria_met
        || (evaluator_judgment evalO s m).user_input_needed) = true
    · simp [h]
    · simp [h]
  · have hroute :
        route_based_on_evaluation (apply_judgment s (evaluator_judgment evalO s m))
          = "worker" := by
      simp [route_based_on_evaluation, apply_judgment, hmet, hinp]
    simp [graph_step, evaluator_node, hm, hroute]

/-- A concrete timestamp used to instantiate theorems. -/
def sampleNow : String := "2026-01-01 00:00:00"

/-- A worker-LLM oracle that answers with plain text and no tool calls. -/
def sampleLlmPlain : List Message → String × List ToolCall := fun _ => ("ok", [])

/-- A worker-LLM oracle that requests one tool invocation. -/
def sampleLlmTool : List Message → String × List ToolCall :=
  fun _ => ("", [⟨"ryanair_flight_search", "MAD LON 2026-01-02"⟩])

/-- A tool-execution oracle. -/
def sampleExec : ToolCall → String := fun _ => "fare data"

/-- An evaluator oracle judging success met and user input needed. -/
def sampleEvalMet : String → String → EvaluatorOutput :=
  fun _ _ => { feedback := "fine", success_criteria_met := true, user_input_needed := true }

/-- An evaluator oracle rejecting the work with concrete feedback. -/
def sampleEvalReject : String → String → EvaluatorOutput :=
  fun _ _ => { feedback := "list the cheapest fare first",
               success_criteria_met := false, user_input_needed := false }

/-- A concrete two-message state. -/
def sampleState : State :=
  { messages := [.human "hi", .assistant "answer" []],
    success_criteria := "crit",
    feedback_on_work := none,
    success_criteria_met := false,
    user_input_needed := false }

/-- Witness for C1 at a concrete state whose judgment has
`success_criteria_met = true` together with `user_input_needed = true`,
showing termination does not depend on the latter. -/
theorem evaluator_routing_c1_witness :
    route_based_on_evaluation
        (apply_judgment sampleState
          (evaluator_judgment sampleEvalMet sampleState (.assistant "answer" [])))
      = "END"
  ∧ run_graph sampleNow sampleLlmPlain sampleExec sampleEvalMet 1 .evaluator sampleState
      = some (apply_judgment sampleState
          (evaluator_judgment sampleEvalMet sampleState (.assistant "answer" [])))
  ∧ (run_graph sampleNow sampleLlmPlain sampleExec sampleEvalMet 1 .evaluator
        sampleState).map (fun st => st.messages.getLast?.map Message.content)
      = some (some (Message.assistant "answer" []).content) :=
  (evaluator_routing_c1 sampleNow sampleLlmPlain sampleExec sampleEvalMet 0
    sampleState (.assistant "answer" []) rfl).1 rfl

/-- C2: the worker edge routes to the tools node exactly when the
message the worker LLM just produced carries at least one tool call;
with zero tool calls it always routes to the evaluator. -/
theorem worker_routing_c2 (now : String)
    (llm : List Message → String × List ToolCall) (s : State) :
    (worker_router (worker_node now llm s) = some "tools"
      ↔ (llm (worker_prompt_messages now s)).2 ≠ [])
  ∧ (worker_router (worker_node now llm s) = some "evaluator"
      ↔ (llm (worker_prompt_messages now s)).2 = []) := by
  have h : worker_router (worker_node now llm s)
      = some (if (llm (worker_prompt_messages now s)).2.isEmpty then "evaluator"
              else "tools") := by
    simp [worker_router, worker_node, List.getLast?_concat]
  cases htc : (llm (worker_prompt_messages now s)).2 with
  | nil => simp [htc] at h; simp [h, htc]
  | cons a l => simp [htc] at h; simp [h, htc]

/-- Witness for C2 at the two sample LLM oracles: the tool-requesting
oracle routes to tools, the plain-text oracle routes to the evaluator. -/
theorem worker_routing_c2_witness :
    worker_router (worker_node sampleNow sampleLlmTool sampleState) = some "tools"
  ∧ worker_router (worker_node sampleNow sampleLlmPlain sampleState)
      = some "evaluator" :=
  ⟨(worker_routing_c2 sampleNow sampleLlmTool sampleState).1.mpr (by decide),
   (worker_routing_c2 sampleNow sampleLlmPlain sampleState).2.mpr rfl⟩

/-- C3: when the judgment has both flags false, the evaluator edge
re-enters the worker with `feedback_on_work` set to the judgment's
feedback text, and the system-prompt content the next worker invocation
constructs from that state contains the feedback text verbatim (as a
contiguous substring). -/
theorem feedback_propagation_c3 (now : String)
    (llm : List Message → String × List ToolCall) (exec : ToolCall → String)
    (evalO : String → String → EvaluatorOutput) (s : State) (m : Message)
    (hm : s.messages.getLast? = some m)
    (hmet : (evaluator_judgment evalO s m).success_criteria_met = false)
    (hinp : (evaluator_judgment evalO s m).user_input_needed = false) :
    graph_step now llm exec evalO .evaluator s
      = some (some Node.worker, apply_judgment s (evaluator_judgment evalO s m))
  ∧ (apply_judgment s (evaluator_judgment evalO s m)).feedback_on_work
      = some (evaluator_judgment evalO s m).feedback
  ∧ ((evaluator_judgment evalO s m).feedback).data
      <:+: (worker_system_content now
        (apply_judgment s (evaluator_judgment evalO s m))).data := by
  refine ⟨?_, rfl, ?_⟩
  · have hroute : route_based_on_evaluation
        (apply_judgment s (evaluator_judgment evalO s m)) = "worker" := by
      simp [route_based_on_evaluation, apply_judgment, hmet, hinp]
    simp [graph_step, evaluator_node, hm, hroute]
  · by_cases hemp : (evaluator_judgment evalO s m).feedback = ""
    · rw [hemp]
      exact List.nil_infix
    · refine ⟨(worker_system_base now s.success_criteria
          ++ "\n            Previously your reply was rejected. Feedback: ").data,
        ("\n            Please fix this.\n            ").data, ?_⟩
      simp [worker_system_content, apply_judgment, worker_feedback_block, hemp,
        String.data_append, List.append_assoc]

/-- Witness for C3 at the rejecting evaluator oracle. -/
theorem feedback_propagation_c3_witness :
    graph_step sampleNow sampleLlmPlain sampleExec sampleEvalReject .evaluator
        sampleState
      = some (some Node.worker, apply_judgment sampleState
          (evaluator_judgment sampleEvalReject sampleState (.assistant "answer" [])))
  ∧ (apply_judgment sampleState
        (evaluator_judgment sampleEvalReject sampleState
          (.assistant "answer" []))).feedback_on_work
      = some (evaluator_judgment sampleEvalReject sampleState
          (.assistant "answer" [])).feedback
  ∧ ((evaluator_judgment sampleEvalReject sampleState
        (.assistant "answer" [])).feedback).data
      <:+: (worker_system_content sampleNow
        (apply_judgment sampleState
          (evaluator_judgment sampleEvalReject sampleState
            (.assistant "answer" [])))).data :=
  feedback_propagation_c3 sampleNow sampleLlmPlain sampleExec sampleEvalReject
    sampleState (.assistant "answer" []) rfl rfl rfl

set_option maxRecDepth 100000 in
/-- C4 counterexample: the HTTP 429 branch does return a dedicated
human-readable warning, but that warning contains none of the three
marker substrings "Cold Start", "502", "reiniciando" the worker
system-prompt rules key on — refuting the claim that each of the two
warnings contains at least one marker. -/
theorem fare_warning_markers_c4_counterexample :
    ryanair_flight_search (.response 429 "" "") = .text warn429
  ∧ ¬ ("Cold Start".data <:+: warn429.data)
  ∧ ¬ ("502".data <:+: warn429.data)
  ∧ ¬ ("reiniciando".data <:+: warn429.data) :=
  ⟨rfl, by decide, by decide, by decide⟩

set_option maxRecDepth 100000 in
/-- C4 amended: HTTP 429 and HTTP 502 are mapped to two distinct
human-readable warning strings; the 502 warning contains the marker
substrings "Cold Start" and "reiniciando" (the 429 warning contains no
marker); every other failure — any other 4xx/5xx status, a connection
error, or an unexpected exception — is returned as the generic
structured result of shape `error: message`. -/
theorem fare_error_mapping_c4_amended (status : Nat) (body errText msg : String)
    (h400 : 400 ≤ status) (h600 : status < 600)
    (h429 : status ≠ 429) (h502 : status ≠ 502) :
    ryanair_flight_search (.response 429 body errText) = .text warn429
  ∧ ryanair_flight_search (.response 502 body errText) = .text warn502
  ∧ warn429 ≠ warn502
  ∧ ("Cold Start".data <:+: warn502.data)
  ∧ ("reiniciando".data <:+: warn502.data)
  ∧ ryanair_flight_search (.response status body errText)
      = .errorObj ("Error HTTP " ++ toString status ++ ": " ++ errText)
  ∧ ryanair_flight_search (.requestError msg)
      = .errorObj ("Error de conexión: " ++ msg)
  ∧ ryanair_flight_search (.unexpected msg)
      = .errorObj ("Error inesperado: " ++ msg) := by
  refine ⟨rfl, rfl, by decide, by decide, by decide, ?_, rfl, rfl⟩
  simp [ryanair_flight_search, h429, h502, h400, h600]

/-- Witness for the amended C4 at status 404. -/
theorem fare_error_mapping_c4_amended_witness :
    ryanair_flight_search (.response 404 "" "Not Found")
      = .errorObj ("Error HTTP " ++ toString 404 ++ ": " ++ "Not Found") :=
  (fare_error_mapping_c4_amended 404 "" "Not Found" "x" (by decide) (by decide)
    (by decide) (by decide)).2.2.2.2.2.1

/-- C5 (code bug): with both credentials present, a failure of the
`smtplib.SMTP` constructor escapes `send_email` as an uncaught
exception. The `except` clause catches the original error, but the
`finally` block tests `if \x27servidor\x27:` — a non-empty string
literal, always truthy — and calls `servidor.quit()` while `servidor`
is still `None`, raising `AttributeError` across the tool boundary,
contrary to the claim that every failure mode returns a result without
raising. -/
theorem send_email_raises_c5 :
    send_email (some "sender@example.com") (some "apppassword")
        (.connectFail "connection refused")
      = .error "AttributeError: \x27NoneType\x27 object has no attribute \x27quit\x27" :=
  rfl

/-- C6 counterexample: on a fully successful submission `send_email`
only prints a confirmation and falls off the end of the function, so
its return value is Python `None`, not a confirmation value — refuting
the claim that it returns a confirmation on success. -/
theorem send_email_no_confirmation_c6_counterexample :
    send_email (some "sender@example.com") (some "apppassword") .ok = .ok none :=
  rfl

/-- C6 amended: when either environment credential is absent (or
empty), `send_email` returns the descriptive configuration-error
string — which contains the fixed marker "Error de configuración" —
without raising, and the result does not depend on the SMTP outcome
(no submission is attempted); on the remaining paths the function
returns `None` rather than a confirmation value. -/
theorem send_email_config_error_c6_amended (remitente password : Option String)
    (o o2 : SmtpOutcome)
    (h : (credential_missing remitente || credential_missing password) = true) :
    send_email remitente password o = .ok (some config_error_message)
  ∧ ("Error de configuración".data <:+: config_error_message.data)
  ∧ send_email remitente password o = send_email remitente password o2
  ∧ send_email (some "sender@example.com") (some "apppassword") o2 ≠
      .ok (some config_error_message) := by
  refine ⟨?_, by decide, ?_, ?_⟩
  · simp [send_email, h]
  · simp [send_email, h]
  · cases o2 <;> simp [send_email, credential_missing]

/-- Witness for the amended C6 with the sender credential absent. -/
theorem send_email_config_error_c6_amended_witness :
    send_email none (some "apppassword") .ok = .ok (some config_error_message)
  ∧ ("Error de configuración".data <:+: config_error_message.data)
  ∧ send_email none (some "apppassword") .ok
      = send_email none (some "apppassword") (.connectFail "x") :=
  ⟨(send_email_config_error_c6_amended none (some "apppassword") .ok
      (.connectFail "x") rfl).1,
   (send_email_config_error_c6_amended none (some "apppassword") .ok
      (.connectFail "x") rfl).2.1,
   (send_email_config_error_c6_amended none (some "apppassword") .ok
      (.connectFail "x") rfl).2.2.1⟩

/-- C7: the prompt sequence the worker sends to the LLM holds exactly
one System entry — the freshly constructed one at the head — and no
pre-existing System entry survives in its tail, whatever the state's
message log contains. -/
theorem single_system_message_c7 (now : String) (s : State) :
    (worker_prompt_messages now s).countP (fun m => m.isSystem) = 1
  ∧ (worker_prompt_messages now s).head?
      = some (.system (worker_system_content now s))
  ∧ ∀ m ∈ (worker_prompt_messages now s).tail, m.isSystem = false := by
  refine ⟨?_, rfl, ?_⟩
  · have hfil : (s.messages.filter (fun m => !m.isSystem)).countP
        (fun m => m.isSystem) = 0 := by
      rw [List.countP_filter]
      simp
    simp [worker_prompt_messages, List.countP_cons, Message.isSystem, hfil]
  · intro m hm
    have := (List.mem_filter.mp hm).2
    simpa using this

/-- A concrete state carrying a stale System entry from a previous
loop iteration. -/
def sampleStateWithSystem : State :=
  { messages := [.system "old prompt", .human "hi", .assistant "answer" []],
    success_criteria := "crit",
    feedback_on_work := none,
    success_criteria_met := false,
    user_input_needed := false }

/-- Witness for C7 on a log that already contains a System entry. -/
theorem single_system_message_c7_witness :
    (worker_prompt_messages sampleNow sampleStateWithSystem).countP
        (fun m => m.isSystem) = 1
  ∧ Message.isSystem (.human "hi") = false :=
  ⟨(single_system_message_c7 sampleNow sampleStateWithSystem).1,
   (single_system_message_c7 sampleNow sampleStateWithSystem).2.2
     (.human "hi") (by decide)⟩

/-- One graph transition only ever appends to the message log. -/
theorem graph_step_messages_extend (now : String)
    (llm : List Message → String × List ToolCall) (exec : ToolCall → String)
    (evalO : String → String → EvaluatorOutput) (n : Node) (s : State)
    (nxt : Option Node) (s2 : State)
    (h : graph_step now llm exec evalO n s = some (nxt, s2)) :
    s.messages <+: s2.messages := by
  cases n with
  | worker =>
      rw [graph_step] at h
      simp only [worker_router, worker_node, List.getLast?_concat, Option.map_some]
        at h
      obtain ⟨-, rfl⟩ := Prod.mk.inj (Option.some.inj h)
      exact List.prefix_append _ _
  | tools =>
      rw [graph_step] at h
      cases hg : s.messages.getLast? with
      | none => rw [tools_node, hg] at h; simp at h
      | some m =>
          rw [tools_node, hg] at h
          obtain ⟨-, rfl⟩ := Prod.mk.inj (Option.some.inj h)
          exact List.prefix_append _ _
  | evaluator =>
      rw [graph_step] at h
      cases hg : s.messages.getLast? with
      | none => rw [evaluator_node, hg] at h; simp at h
      | some m =>
          rw [evaluator_node, hg] at h
          obtain ⟨-, rfl⟩ := Prod.mk.inj (Option.some.inj h)
          exact List.prefix_rfl

/-- A whole graph run only ever appends to the message log. -/
theorem run_graph_messages_extend (now : String)
    (llm : List Message → String × List ToolCall) (exec : ToolCall → String)
    (evalO : String → String → EvaluatorOutput) :
    ∀ (fuel : Nat) (n : Node) (s s2 : State),
      run_graph now llm exec evalO fuel n s = some s2 →
      s.messages <+: s2.messages := by
  intro fuel
  induction fuel with
  | zero => intro n s s2 h; rw [run_graph] at h; cases h
  | succ k ih =>
      intro n s s2 h
      rw [run_graph] at h
      cases hstep : graph_step now llm exec evalO n s with
      | none => rw [hstep] at h; cases h
      | some p =>
          obtain ⟨nxt, s1⟩ := p
          rw [hstep] at h
          cases nxt with
          | none =>
              cases h
              exact graph_step_messages_extend now llm exec evalO n s none s2 hstep
          | some n2 =>
              exact (graph_step_messages_extend now llm exec evalO n s
                (some n2) s1 hstep).trans (ih n2 s1 s2 h)

/-- C8: the message log is append-only — after any single Worker, Tools
or Evaluator transition, and after any terminating sequence of loop
steps, the prior log is a prefix of the new one, so its length never
decreases. -/
theorem append_only_messages_c8 (now : String)
    (llm : List Message → String × List ToolCall) (exec : ToolCall → String)
    (evalO : String → String → EvaluatorOutput) (n : Node) (s : State) :
    (∀ (nxt : Option Node) (s2 : State),
        graph_step now llm exec evalO n s = some (nxt, s2) →
        s.messages <+: s2.messages
          ∧ s.messages.length ≤ s2.messages.length)
  ∧ (∀ (fuel : Nat) (s2 : State),
        run_graph now llm exec evalO fuel n s = some s2 →
        s.messages <+: s2.messages
          ∧ s.messages.length ≤ s2.messages.length) := by
  constructor
  · intro nxt s2 h
    have hp := graph_step_messages_extend now llm exec evalO n s nxt s2 h
    exact ⟨hp, hp.length_le⟩
  · intro fuel s2 h
    have hp := run_graph_messages_extend now llm exec evalO fuel n s s2 h
    exact ⟨hp, hp.length_le⟩

/-- Witness for C8: a one-step terminating run from the evaluator on
the sample state keeps the log as a prefix. -/
theorem append_only_messages_c8_witness :
    sampleState.messages <+:
        (apply_judgment sampleState
          (evaluator_judgment sampleEvalMet sampleState
            (.assistant "answer" []))).messages
  ∧ sampleState.messages.length ≤
      (apply_judgment sampleState
        (evaluator_judgment sampleEvalMet sampleState
          (.assistant "answer" []))).messages.length :=
  (append_only_messages_c8 sampleNow sampleLlmPlain sampleExec sampleEvalMet
    .evaluator sampleState).2 1
    (apply_judgment sampleState
      (evaluator_judgment sampleEvalMet sampleState (.assistant "answer" [])))
    rfl

/-- C9 counterexample: at a log whose only entry is an assistant
message with empty content, the transcript renders the placeholder
`[Tool Call]`, while the "last response" substitutes the placeholder
`[Action/Tool Call]` — two different marker strings, refuting the
claim that the transcript and the last response use the same
placeholder marker. -/
theorem evaluator_placeholder_c9_counterexample :
    format_conversation [.assistant "" []]
      = "Conversation history:\n\nAssistant: [Tool Call]\n"
  ∧ evaluator_last_response [.assistant "" []] = some "[Action/Tool Call]"
  ∧ "[Tool Call]" ≠ "[Action/Tool Call]" :=
  ⟨rfl, rfl, by decide⟩

/-- The transcript fold ignores System entries wherever they occur. -/
theorem format_conversation_drops_system (msgs : List Message) :
    format_conversation msgs
      = format_conversation (msgs.filter (fun m => !m.isSystem)) := by
  unfold format_conversation
  generalize "Conversation history:\n\n" = acc
  induction msgs generalizing acc with
  | nil => rfl
  | cons a l ih =>
      cases a with
      | system c =>
          refine Eq.trans ?_ (ih acc)
          show List.foldl _ (acc ++ "") l = List.foldl _ acc l
          rw [String.append_empty]
      | human c => exact ih _
      | assistant c tcs => exact ih _
      | tool c => exact ih _

/-- C9 amended: the evaluator transcript omits all System entries and
renders an Assistant entry with empty text content as the placeholder
`[Tool Call]`; the "last response" is the last message's text content,
with the distinct placeholder `[Action/Tool Call]` substituted when
that content is empty. -/
theorem evaluator_rendering_c9_amended (msgs : List Message) (c : String)
    (tcs : List ToolCall) (m : Message) :
    format_conversation msgs
      = format_conversation (msgs.filter (fun m => !m.isSystem))
  ∧ format_conversation (.system c :: msgs) = format_conversation msgs
  ∧ format_conversation (msgs ++ [.assistant "" tcs])
      = format_conversation msgs ++ "Assistant: [Tool Call]\n"
  ∧ (m.content = "" →
      evaluator_last_response (msgs ++ [m]) = some "[Action/Tool Call]")
  ∧ (m.content ≠ "" →
      evaluator_last_response (msgs ++ [m]) = some m.content) := by
  refine ⟨format_conversation_drops_system msgs, ?_, ?_, ?_, ?_⟩
  · exact (format_conversation_drops_system (.system c :: msgs)).trans
      (format_conversation_drops_system msgs).symm
  · rw [format_conversation, format_conversation, List.foldl_append]
    rfl
  · intro h
    simp [evaluator_last_response, List.getLast?_concat, h]
  · intro h
    simp [evaluator_last_response, List.getLast?_concat, h]

/-- Witness for the amended C9 at a one-message log and an empty
assistant message. -/
theorem evaluator_rendering_c9_amended_witness :
    format_conversation ([Message.human "hi"] ++ [.assistant "" []])
      = format_conversation [Message.human "hi"] ++ "Assistant: [Tool Call]\n"
  ∧ evaluator_last_response ([Message.human "hi"] ++ [.assistant "" []])
      = some "[Action/Tool Call]" :=
  ⟨(evaluator_rendering_c9_amended [.human "hi"] "sys" [] (.assistant "" [])).2.2.1,
   (evaluator_rendering_c9_amended [.human "hi"] "sys" []
      (.assistant "" [])).2.2.2.1 rfl⟩

/-- C10: the session entry point's `thread_id` field is optional and
defaults to the fixed string "default_user", so any two requests that
omit it are forwarded to `run_superstep` under the same thread
identifier — one shared conversation state — while a supplied
identifier is used as given. -/
theorem default_thread_c10 (m1 m2 t : String) :
    (parse_chat_request m1 none).thread_id = "default_user"
  ∧ chat_endpoint_thread (parse_chat_request m1 none)
      = chat_endpoint_thread (parse_chat_request m2 none)
  ∧ (parse_chat_request m1 (some t)).thread_id = t :=
  ⟨rfl, rfl, rfl⟩

end Flight
